import Mathlib

set_option autoImplicit false

/-!
Shallow embedding of the authentication / authorization core of the
Nest-refresher repository: the role guard, the access-token guard with its
public-route bypass, the refresh-token verification strategy, the refresh /
rotation flow of the auth service, and the user service's create / findAll
operations.  Each definition is translated from the corresponding TypeScript
source (files under `src/` and the code blocks of `docs/15-authorization.md`
that the repository presents as its own implementation).
-/

namespace NestRefresher

/-! ## User entity (src/users/entities/user.entity.ts) -/

/-- Enum `UserRole` from `src/users/entities/user.entity.ts`. -/
inductive UserRole where
  | Admin
  | Organizer
  | User
  | Guest
deriving DecidableEq, Repr

/-- Entity `User` from `src/users/entities/user.entity.ts`.
The auto-managed timestamp columns (`created_at`, `updated_at`) are omitted:
no operation modelled here reads them. -/
structure User where
  user_id : Nat
  name : String
  email : String
  password : String
  phone : Option String
  hashedRefreshToken : Option String
  role : UserRole
deriving DecidableEq, Repr

/-- Shape of `request.user` attached by `AccessStrategy.validate`
(src/auth/strategies/access.stategy.ts): it returns
`{ user_id: payload.sub, email: payload.email, role: payload.role }`,
where the role claim is the string embedded in the token. -/
structure AttachedUser where
  user_id : Nat
  email : String
  role : String
deriving DecidableEq, Repr

/-- Model of `this.userRepository.findOne({ where: { user_id } })`: the first
record of the store whose `user_id` column matches. -/
def findUserById (store : List User) (uid : Nat) : Option User :=
  store.find? (fun r => r.user_id == uid)

/-! ## RolesGuard (src/auth/guards/refresh-token.guards.ts) -/

/-- Embedding of `RolesGuard.canActivate`.
The reflector's `getAllAndOverride(ROLES_KEY, [handler, class])` result is the
`requiredRoles` argument: `none` models the JavaScript `undefined` (no `@Roles`
metadata anywhere), `some roles` models a declared role array — note that in
JavaScript an *empty* array is truthy, so `if (!requiredRoles)` only fires for
`undefined`.  The request's `user` property is the `requestUser` argument.
The guard then re-fetches the user by id from the repository and returns
`requiredRoles.some((role) => verifiedUser.role === role)`. -/
def rolesGuardCanActivate (requiredRoles : Option (List UserRole))
    (store : List User) (requestUser : Option AttachedUser) : Bool :=
  match requiredRoles with
  | none => true
  | some roles =>
    match requestUser with
    | none => false
    | some u =>
      match findUserById store u.user_id with
      | none => false
      | some verifiedUser => roles.any (fun role => verifiedUser.role == role)

/-- Written from the spec's words (section 4.4), for the refinement claim C1:
1. no declared role set → allow; 2. no identity → deny; 3–4. re-fetch the
subject's record by id, deny if absent; 5. allow iff the freshly fetched role
is a member of the declared set. -/
def specRoleDecision (declared : Option (List UserRole))
    (store : List User) (identity : Option AttachedUser) : Bool :=
  match declared with
  | none => true
  | some allowed =>
    match identity with
    | none => false
    | some ident =>
      match findUserById store ident.user_id with
      | none => false
      | some fetched => allowed.contains fetched.role

/-! ## UsersService (src/users/users.service.ts) -/

/-- DTO `CreateUserDto` from `src/users/dto/create-user.dto.ts` (the optional
auto-managed timestamps are omitted, as in `User`). -/
structure CreateUserDto where
  name : String
  email : String
  password : String
  phone : Option String
  role : Option UserRole
  hashedRefreshToken : Option String
deriving DecidableEq, Repr

/-- Embedding of `UsersService.create` from `src/users/users.service.ts`:
`this.usersRepository.create(createUserDto)` builds the entity from the DTO
fields verbatim (the `role` column defaults to `UserRole.User` when absent,
per the entity's column default), and `save` persists it.  `nextId` models the
generated primary key.  Returns the persisted record and the new store. -/
def usersServiceCreate (store : List User) (nextId : Nat)
    (dto : CreateUserDto) : User × List User :=
  let user : User :=
    { user_id := nextId
      name := dto.name
      email := dto.email
      password := dto.password
      phone := dto.phone
      hashedRefreshToken := dto.hashedRefreshToken
      role := dto.role.getD UserRole.User }
  (user, store ++ [user])

/-- Column names of the `users` table, for modelling TypeORM `select`
projections. -/
inductive UserColumn where
  | user_id
  | name
  | email
  | password
  | phone
  | hashedRefreshToken
  | role
deriving DecidableEq, Repr

/-- String value of one column of a record (enum and numeric columns rendered
as strings, nullable columns as their text or empty). -/
def columnValue (u : User) : UserColumn → String
  | .user_id => toString u.user_id
  | .name => u.name
  | .email => u.email
  | .password => u.password
  | .phone => u.phone.getD ""
  | .hashedRefreshToken => u.hashedRefreshToken.getD ""
  | .role =>
    match u.role with
    | .Admin => "Admin"
    | .Organizer => "Organizer"
    | .User => "User"
    | .Guest => "Guest"

/-- A TypeORM `select` projection: the row keeps exactly the listed columns,
in order, paired with their values. -/
def selectColumns (cols : List UserColumn) (u : User) :
    List (UserColumn × String) :=
  cols.map (fun c => (c, columnValue u c))

/-- Embedding of `UsersService.findAll` from `src/users/users.service.ts`:
`find({ select: { user_id: true, name: true, email: true, role: true } })` —
every row of the store, projected to exactly those four columns. -/
def usersServiceFindAll (store : List User) :
    List (List (UserColumn × String)) :=
  store.map (selectColumns
    [UserColumn.user_id, UserColumn.name, UserColumn.email, UserColumn.role])

/-! ## Auth service and refresh flow (docs/15-authorization.md, steps 1 and 5;
controller from the authentication guide) -/

/-- JavaScript strings that the auth flow slices and compares, modelled as
character lists so that every operation on them is computable. -/
abbrev JSString := List Char

/-- Enum `Role` from the `Profile` entity (docs/15-authorization.md, step 1). -/
inductive Role where
  | STUDENT
  | FACULTY
  | ADMIN
  | GUEST
deriving DecidableEq, Repr

/-- Entity `Profile` (docs/15-authorization.md, step 1).  The relation and
auto-managed timestamp columns are omitted: no modelled operation reads them. -/
structure Profile where
  id : Nat
  firstName : String
  lastName : String
  email : String
  password : String
  role : Role
  hashedRefreshToken : Option JSString
deriving DecidableEq, Repr

/-- External cryptographic collaborators, taken as parameters of the model:
`bhash` stands for bcrypt hashing, `signAccess` / `signRefresh` for
`jwtService.signAsync` with the access / refresh secret and expiry (each maps
the signed payload `{ sub, email, role }` to an opaque token string). -/
structure CryptoEnv where
  bhash : JSString → JSString
  signAccess : Nat → String → Role → JSString
  signRefresh : Nat → String → Role → JSString

/-- Model of `Bcrypt.compare(raw, stored)`: succeeds exactly when the stored
string is the bcrypt hash of the raw token (bcrypt's contract, collisions
aside). -/
def bcryptCompare (env : CryptoEnv) (raw stored : JSString) : Bool :=
  stored == env.bhash raw

/-- The `{ accessToken, refreshToken }` pair returned by the auth service. -/
structure TokenPair where
  accessToken : JSString
  refreshToken : JSString
deriving DecidableEq, Repr

/-- Model of `this.profileRepository.findOne({ where: { id } })`. -/
def findProfileById (store : List Profile) (pid : Nat) : Option Profile :=
  store.find? (fun r => r.id == pid)

/-- Embedding of the private helper `getTokens(userId, email, role)`
(docs/15-authorization.md, step 5): signs the access and refresh tokens over
the same payload with their respective secrets and expiries. -/
def getTokens (env : CryptoEnv) (userId : Nat) (email : String)
    (role : Role) : TokenPair :=
  { accessToken := env.signAccess userId email role
    refreshToken := env.signRefresh userId email role }

/-- Modelled from the spec: the body of `AuthService.saveRefreshToken` is
absent from the corpus (docs/15-authorization.md only shows its call sites in
`signIn` and `refreshTokens`).  Section 4.1 of the spec says "the refresh
token's hash is persisted against the subject's record, overwriting any prior
value (single active refresh token per user)", so the model stores
`bhash token` into the subject's `hashedRefreshToken` column. -/
def saveRefreshToken (env : CryptoEnv) (store : List Profile) (pid : Nat)
    (token : JSString) : List Profile :=
  store.map (fun u =>
    if u.id == pid then { u with hashedRefreshToken := some (env.bhash token) }
    else u)

/-- Errors thrown by the auth flow: `unauthorized` models
`UnauthorizedException` (HTTP 401), `notFound` models `NotFoundException`
(HTTP 404); each carries its message. -/
inductive AuthError where
  | unauthorized (msg : String)
  | notFound (msg : String)
deriving DecidableEq, Repr

/-- Embedding of `AuthService.refreshTokens(id, refreshToken)`
(docs/15-authorization.md, step 5): fetch the profile by id
(`NotFoundException` naming the id when absent), reject when no refresh hash
is stored (`No refresh token found`), compare the presented raw token against
the stored bcrypt hash (`Invalid refresh token` on mismatch), otherwise issue
a fresh pair, persist the new refresh hash and return the pair together with
the updated store. -/
def refreshTokens (env : CryptoEnv) (store : List Profile) (id : Nat)
    (refreshToken : JSString) : Except AuthError (TokenPair × List Profile) :=
  match findProfileById store id with
  | none =>
    .error (.notFound ("User with ID " ++ toString id ++ " not found"))
  | some foundUser =>
    match foundUser.hashedRefreshToken with
    | none => .error (.notFound "No refresh token found")
    | some storedHash =>
      if bcryptCompare env refreshToken storedHash then
        let pair := getTokens env foundUser.id foundUser.email foundUser.role
        .ok (pair, saveRefreshToken env store foundUser.id pair.refreshToken)
      else
        .error (.notFound "Invalid refresh token")

/-- The request user seen by the refresh endpoint: the verified refresh-token
claim plus the raw bearer token, as attached by `RefreshStrategy.validate`. -/
structure PayloadWithRT where
  sub : Nat
  email : String
  refreshToken : JSString
deriving DecidableEq, Repr

/-- Embedding of `AuthController.refreshTokens` (authentication guide): reject
with `UnauthorizedException('Invalid user')` when the verified claim's `sub`
differs from the caller-supplied `id`, otherwise delegate to
`AuthService.refreshTokens(id, user.refreshToken)`. -/
def authControllerRefreshTokens (env : CryptoEnv) (store : List Profile)
    (id : Nat) (reqUser : PayloadWithRT) :
    Except AuthError (TokenPair × List Profile) :=
  if reqUser.sub != id then
    .error (.unauthorized "Invalid user")
  else
    refreshTokens env store id reqUser.refreshToken

/-- Modelled from the spec: the body of `AuthService.signOut` is absent from
the corpus — the controller (`GET /auth/signout/:id`, authentication guide)
delegates to it and the service shows only comment pseudocode ("Remove
refresh token / Return success message").  Spec section 4.6: clear the
persisted refresh-token hash for that subject, so any future refresh attempt
fails; section 7: an unknown subject id is treated as an
authentication/authorization failure, not leaked as a distinct
user-doesn't-exist message.  Returns the updated store on success. -/
def signOut (store : List Profile) (id : Nat) :
    Except AuthError (List Profile) :=
  match findProfileById store id with
  | none => .error (.unauthorized "Unauthorized")
  | some _ =>
    .ok (store.map (fun u =>
      if u.id == id then { u with hashedRefreshToken := none } else u))

/-! ## Refresh-token verification (src/unnamed strategy file:
`RefreshStrategy` over passport-jwt) -/

/-- Payload type `JWTPayload` of the refresh strategy. -/
structure JWTPayload where
  sub : Nat
  email : String
deriving DecidableEq, Repr

/-- The seven characters of the `Bearer ` scheme prefix. -/
def bearerChars : JSString := ['B', 'e', 'a', 'r', 'e', 'r', ' ']

/-- JavaScript `String.prototype.trim`: strip whitespace from both ends. -/
def jsTrim (l : JSString) : JSString :=
  ((l.dropWhile Char.isWhitespace).reverse.dropWhile Char.isWhitespace).reverse

/-- Structural model of a compact JWT: the payload it encodes, the secret it
was signed with, and its expiry instant.  The external `decode` collaborator
of `VerifierEnv` maps wire strings to this structure. -/
structure SignedToken where
  payload : JWTPayload
  signedWith : String
  exp : Nat
deriving DecidableEq, Repr

/-- External collaborators of the verifier: the JWT wire-format parse
(`none` = not a well-formed JWT) and the configured refresh secret
(`JWT_REFRESH_TOKEN_SECRET`). -/
structure VerifierEnv where
  decode : JSString → Option SignedToken
  secret : String

/-- Model of the passport-jwt core verification: a decoded token yields its
payload exactly when the signature matches the configured secret and the
token is not yet expired. -/
def jwtVerify (secret : String) (now : Nat) (t : SignedToken) :
    Option JWTPayload :=
  if t.signedWith == secret && now < t.exp then some t.payload else none

/-- Embedding of `RefreshStrategy.validate(req, payload)`: re-reads the
`Authorization` header, throws `UnauthorizedException` when the header is
missing, lacks the `Bearer ` prefix, or the remaining token string is empty
after stripping and trimming, and otherwise attaches
`{ sub, email, refreshToken }` to the request.  Stripping is
`authHeader.replace('Bearer ', '').trim()`; under the prefix guard the
first occurrence of `Bearer ` is the prefix itself, so it is `drop 7`
followed by `trim`. -/
def refreshStrategyValidate (authHeader : Option JSString)
    (payload : JWTPayload) : Except AuthError PayloadWithRT :=
  match authHeader with
  | none => .error (.unauthorized "No Authorization header")
  | some h =>
    if !(bearerChars.isPrefixOf h) then
      .error (.unauthorized "Invalid Authorization header format")
    else
      let tr := jsTrim (h.drop 7)
      if tr == [] then .error (.unauthorized "No token found")
      else .ok { sub := payload.sub, email := payload.email, refreshToken := tr }

/-- The whole refresh-verification pipeline of one request, as run by the
passport machinery before the route handler: extract the bearer token from
the `Authorization` header (`ExtractJwt.fromAuthHeaderAsBearerToken`: header
present, `Bearer ` prefix, non-empty remainder), parse and verify it
(signature against the refresh secret, expiry against `now`), then run
`RefreshStrategy.validate`, which attaches the claim.  Any failure is an
authentication error and no claim is produced. -/
def refreshVerifierPipeline (env : VerifierEnv) (now : Nat)
    (authHeader : Option JSString) : Except AuthError PayloadWithRT :=
  match authHeader with
  | none => .error (.unauthorized "Unauthorized")
  | some h =>
    if !(bearerChars.isPrefixOf h) then .error (.unauthorized "Unauthorized")
    else
      let tokenStr := jsTrim (h.drop 7)
      if tokenStr == [] then .error (.unauthorized "Unauthorized")
      else
        match env.decode tokenStr with
        | none => .error (.unauthorized "Unauthorized")
        | some tok =>
          match jwtVerify env.secret now tok with
          | none => .error (.unauthorized "Unauthorized")
          | some payload => refreshStrategyValidate authHeader payload

/-! ## Access-token guard (src/auth/guards/access-token.guards.ts) -/

/-- Model of `reflector.getAllAndOverride(key, [handler, class])`: the value
set at the method level when there is one, otherwise the value set at the
class level (nearest declaration wins). -/
def getAllAndOverride (methodFlag classFlag : Option Bool) : Option Bool :=
  match methodFlag with
  | some b => some b
  | none => classFlag

/-- Outcome of `AtGuard.canActivate` for one request, recording whether the
request may proceed, whether `super.canActivate` (token verification via the
access strategy) was invoked, and the identity attached to the request. -/
structure AtGuardResult where
  allowed : Bool
  verificationInvoked : Bool
  identity : Option AttachedUser
deriving DecidableEq, Repr

/-- Embedding of `AtGuard.canActivate`: resolve the `isPublic` flag with
`getAllAndOverride('isPublic', [handler, class])`; when it is truthy, return
`true` immediately — token verification never runs and no identity is
attached.  Otherwise delegate to `super.canActivate`, modelled by the
verification outcome `verifyOutcome` of the access strategy (`some u` =
verified, attaching `u`; `none` = authentication failure). -/
def atGuardCanActivate (methodFlag classFlag : Option Bool)
    (verifyOutcome : Option AttachedUser) : AtGuardResult :=
  match getAllAndOverride methodFlag classFlag with
  | some true => { allowed := true, verificationInvoked := false, identity := none }
  | _ =>
    match verifyOutcome with
    | some u => { allowed := true, verificationInvoked := true, identity := some u }
    | none => { allowed := false, verificationInvoked := true, identity := none }

/-! ## Concrete fixtures used to evaluate the development on closed inputs -/

/-- Concrete crypto environment for closed evaluations: `bhash` is the
identity (trivially injective), and the signers stamp the subject id into the
token text. -/
def envId : CryptoEnv :=
  { bhash := fun s => s
    signAccess := fun _ _ _ => ['A', 'T', '1']
    signRefresh := fun _ _ _ => ['R', 'T', '1'] }

/-- A profile whose `hashedRefreshToken` column is NULL. -/
def profileWithoutHash : Profile :=
  { id := 1, firstName := "Ada", lastName := "L", email := "ada@school.com"
    password := "pw", role := Role.STUDENT, hashedRefreshToken := none }

/-- A profile holding the (identity-)hash of the refresh token `old`. -/
def profileOld : Profile :=
  { id := 1, firstName := "Ada", lastName := "L", email := "ada@school.com"
    password := "pw", role := Role.STUDENT
    hashedRefreshToken := some ['o', 'l', 'd'] }

/-- A profile holding the (identity-)hash of the refresh token `right`. -/
def profileRight : Profile :=
  { id := 1, firstName := "Ada", lastName := "L", email := "ada@school.com"
    password := "pw", role := Role.STUDENT
    hashedRefreshToken := some ['r', 'i', 'g', 'h', 't'] }

/-- Concrete verifier environment: `tok` parses to a token signed with the
configured secret `"sec"` expiring at 100, `bad` to one signed with a
different secret. -/
def envW8 : VerifierEnv :=
  { decode := fun s =>
      if s == ['t', 'o', 'k'] then
        some { payload := { sub := 1, email := "ada@school.com" }
               signedWith := "sec", exp := 100 }
      else if s == ['b', 'a', 'd'] then
        some { payload := { sub := 1, email := "ada@school.com" }
               signedWith := "other", exp := 100 }
      else none
    secret := "sec" }

/-- A concrete user record for closed evaluations of the src-side services. -/
def demoUser : User :=
  { user_id := 7, name := "Ada", email := "ada@school.com"
    password := "hashed-pw", phone := none
    hashedRefreshToken := some "h", role := UserRole.Admin }

/-! ## Helper lemmas -/

/-- Any-with-beq equals membership test: the guard's
`roles.some((role) => r === role)` is the set-membership test of the spec. -/
theorem any_beq_eq_contains (x : UserRole) (l : List UserRole) :
    l.any (fun r => x == r) = l.contains x := by
  induction l with
  | nil => rfl
  | cons h t ih =>
    cases hx : x == h with
    | true =>
      simp [List.any_cons, List.contains_cons, hx]
      exact Or.inl (eq_of_beq hx)
    | false =>
      have hne : x ≠ h := by simpa using hx
      simp [List.any_cons, List.contains_cons, hx, ih, hne]

/-- List search commutes with a map that does not change the search
predicate's verdict. -/
theorem find?_map_comm {α : Type} (p : α → Bool) (f : α → α)
    (hf : ∀ x, p (f x) = p x) :
    ∀ l : List α, List.find? p (l.map f) = (List.find? p l).map f := by
  intro l
  induction l with
  | nil => rfl
  | cons a t ih =>
    cases hp : p a with
    | true => simp [List.find?_cons, hf, hp]
    | false => simp [List.find?_cons, hf, hp, ih]

/-- Re-fetching a subject after `saveRefreshToken` for that subject finds the
same record with its `hashedRefreshToken` column overwritten by the new hash. -/
theorem findProfileById_saveRefreshToken (env : CryptoEnv)
    (store : List Profile) (pid : Nat) (tok : JSString) :
    findProfileById (saveRefreshToken env store pid tok) pid =
      (findProfileById store pid).map
        (fun u => { u with hashedRefreshToken := some (env.bhash tok) }) := by
  have hcomm : ∀ x : Profile,
      (((if x.id == pid then
          ({ x with hashedRefreshToken := some (env.bhash tok) } : Profile)
        else x)).id == pid) = (x.id == pid) := by
    intro x
    cases hx : (x.id == pid) with
    | true => simp [hx]
    | false => simp [hx]
  unfold saveRefreshToken findProfileById
  rw [find?_map_comm _ _ hcomm]
  cases hfind : List.find? (fun r => r.id == pid) store with
  | none => rfl
  | some u =>
    have hp := List.find?_some hfind
    simp at hp
    simp [hp]

/-! ## Claim theorems -/

/-- C1: the role guard's decision for every request follows the spec's
algorithm — no declared role set allows; a declared set with no attached
identity denies; otherwise the subject's record is re-fetched by id, a
missing record denies, and the request is allowed iff the freshly fetched
role is a member of the declared set. -/
theorem rolesGuard_follows_spec (declared : Option (List UserRole))
    (store : List User) (identity : Option AttachedUser) :
    rolesGuardCanActivate declared store identity =
      specRoleDecision declared store identity := by
  cases declared with
  | none => rfl
  | some roles =>
    cases identity with
    | none => rfl
    | some ident =>
      simp only [rolesGuardCanActivate, specRoleDecision]
      cases findUserById store ident.user_id with
      | none => rfl
      | some fetched => exact any_beq_eq_contains fetched.role roles

/-- C2: for two requests identical except for the role string embedded in the
verified token's claim (same subject id, same email), the role guard produces
the same decision — it depends only on the declared role set and the role
stored for the subject id, never on the token-embedded role. -/
theorem rolesGuard_ignores_token_role (declared : Option (List UserRole))
    (store : List User) (u1 u2 : AttachedUser)
    (hid : u1.user_id = u2.user_id) (hem : u1.email = u2.email) :
    rolesGuardCanActivate declared store (some u1) =
      rolesGuardCanActivate declared store (some u2) := by
  cases declared with
  | none => rfl
  | some roles => simp only [rolesGuardCanActivate, hid]

/-- Closed witness for C2: a `Student`-role token and an `Admin`-role token
for the same stored subject get the same decision. -/
theorem rolesGuard_ignores_token_role_witness :
    ({ user_id := 7, email := "ada@school.com", role := "User" } :
        AttachedUser).user_id =
      ({ user_id := 7, email := "ada@school.com", role := "Admin" } :
        AttachedUser).user_id
    ∧ ({ user_id := 7, email := "ada@school.com", role := "User" } :
        AttachedUser).email =
      ({ user_id := 7, email := "ada@school.com", role := "Admin" } :
        AttachedUser).email
    ∧ rolesGuardCanActivate (some [UserRole.Admin]) [demoUser]
        (some { user_id := 7, email := "ada@school.com", role := "User" }) =
      rolesGuardCanActivate (some [UserRole.Admin]) [demoUser]
        (some { user_id := 7, email := "ada@school.com", role := "Admin" }) :=
  ⟨rfl, rfl,
    rolesGuard_ignores_token_role (some [UserRole.Admin]) [demoUser]
      { user_id := 7, email := "ada@school.com", role := "User" }
      { user_id := 7, email := "ada@school.com", role := "Admin" }
      rfl rfl⟩

/-- C9: a declared-but-empty role list denies every request — the JavaScript
`!requiredRoles` check only treats an absent declaration as unrestricted, and
membership of the fetched role in the empty list never holds. -/
theorem emptyRolesDeclaration_denies (store : List User)
    (requestUser : Option AttachedUser) :
    rolesGuardCanActivate (some []) store requestUser = false := by
  cases requestUser with
  | none => rfl
  | some u =>
    simp only [rolesGuardCanActivate]
    cases findUserById store u.user_id with
    | none => rfl
    | some fetched => rfl

/-- C10: every row returned by `UsersService.findAll` carries exactly the
`user_id`, `name`, `email` and `role` columns; the `password` and
`hashedRefreshToken` columns never appear. -/
theorem findAll_excludes_secret_columns (store : List User)
    (row : List (UserColumn × String)) (hrow : row ∈ usersServiceFindAll store) :
    row.map Prod.fst =
        [UserColumn.user_id, UserColumn.name, UserColumn.email, UserColumn.role]
      ∧ ∀ kv ∈ row,
          kv.1 ≠ UserColumn.password ∧ kv.1 ≠ UserColumn.hashedRefreshToken := by
  simp only [usersServiceFindAll, List.mem_map] at hrow
  obtain ⟨u, _, rfl⟩ := hrow
  constructor
  · simp [selectColumns, List.map_map, Function.comp]
  · intro kv hkv
    simp only [selectColumns, List.mem_map] at hkv
    obtain ⟨c, hc, rfl⟩ := hkv
    simp only [List.mem_cons, List.not_mem_nil] at hc
    rcases hc with rfl | rfl | rfl | rfl | h
    · exact ⟨by simp, by simp⟩
    · exact ⟨by simp, by simp⟩
    · exact ⟨by simp, by simp⟩
    · exact ⟨by simp, by simp⟩
    · cases h

/-- Closed witness for C10: the projection of a concrete store. -/
theorem findAll_excludes_secret_columns_witness :
    (selectColumns
        [UserColumn.user_id, UserColumn.name, UserColumn.email, UserColumn.role]
        demoUser ∈ usersServiceFindAll [demoUser])
    ∧ ((selectColumns
        [UserColumn.user_id, UserColumn.name, UserColumn.email, UserColumn.role]
        demoUser).map Prod.fst =
        [UserColumn.user_id, UserColumn.name, UserColumn.email, UserColumn.role]
      ∧ ∀ kv ∈ selectColumns
          [UserColumn.user_id, UserColumn.name, UserColumn.email, UserColumn.role]
          demoUser,
          kv.1 ≠ UserColumn.password ∧ kv.1 ≠ UserColumn.hashedRefreshToken) :=
  ⟨by decide,
    findAll_excludes_secret_columns [demoUser] _ (by decide)⟩

/-- C6 (against the code): `UsersService.create` in
`src/users/users.service.ts` persists the DTO's password verbatim — the
record saved for a signup carrying the plaintext `plain-password-123` stores
exactly that plaintext, not a one-way hash of it. -/
theorem create_stores_plaintext_password :
    (usersServiceCreate [] 1
        { name := "Eve", email := "eve@school.com"
          password := "plain-password-123", phone := none
          role := none, hashedRefreshToken := none }).1.password =
        "plain-password-123"
    ∧ (usersServiceCreate [] 1
        { name := "Eve", email := "eve@school.com"
          password := "plain-password-123", phone := none
          role := none, hashedRefreshToken := none }).2.map User.password =
        ["plain-password-123"] :=
  ⟨rfl, rfl⟩

/-- C7: whenever the resolved `isPublic` flag is true, `AtGuard.canActivate`
allows the request without invoking token verification and with no identity
attached; and the resolution is nearest-declaration-wins — a method-level
flag always overrides a controller-level one. -/
theorem publicFlag_bypasses_verification :
    (∀ (methodFlag classFlag : Option Bool)
        (verifyOutcome : Option AttachedUser),
        getAllAndOverride methodFlag classFlag = some true →
        atGuardCanActivate methodFlag classFlag verifyOutcome =
          { allowed := true, verificationInvoked := false, identity := none })
    ∧ ∀ (b : Bool) (classFlag : Option Bool),
        getAllAndOverride (some b) classFlag = some b := by
  constructor
  · intro methodFlag classFlag verifyOutcome hres
    simp only [atGuardCanActivate, hres]
  · intro b classFlag
    rfl

/-- Closed witness for C7: a method-level `@Public()` on a controller whose
class-level flag is absent bypasses verification even when verification
would fail. -/
theorem publicFlag_bypasses_verification_witness :
    getAllAndOverride (some true) none = some true
    ∧ atGuardCanActivate (some true) none none =
        { allowed := true, verificationInvoked := false, identity := none }
    ∧ getAllAndOverride (some false) (some true) = some false :=
  ⟨rfl,
    publicFlag_bypasses_verification.1 (some true) none none rfl,
    publicFlag_bypasses_verification.2 false (some true)⟩

/-- C8: the refresh verification pipeline fails (and attaches no claim) when
the Authorization header is missing, when the `Bearer ` prefix is absent,
when the remaining token string is empty, when the token's signature does not
match the configured secret, and when the token is expired; and a claim is
attached exactly on success, carrying the decoded payload and the raw token. -/
theorem refreshVerification_characterization (env : VerifierEnv) (now : Nat)
    (authHeader : Option JSString) :
    (authHeader = none →
      refreshVerifierPipeline env now authHeader =
        .error (.unauthorized "Unauthorized"))
    ∧ (∀ h, authHeader = some h → ¬ bearerChars.isPrefixOf h →
        refreshVerifierPipeline env now authHeader =
          .error (.unauthorized "Unauthorized"))
    ∧ (∀ h, authHeader = some h → bearerChars.isPrefixOf h →
        jsTrim (h.drop 7) = [] →
        refreshVerifierPipeline env now authHeader =
          .error (.unauthorized "Unauthorized"))
    ∧ (∀ h tok, authHeader = some h →
        env.decode (jsTrim (h.drop 7)) = some tok →
        tok.signedWith ≠ env.secret →
        (refreshVerifierPipeline env now authHeader).isOk = false)
    ∧ (∀ h tok, authHeader = some h →
        env.decode (jsTrim (h.drop 7)) = some tok →
        tok.exp ≤ now →
        (refreshVerifierPipeline env now authHeader).isOk = false)
    ∧ (∀ p, refreshVerifierPipeline env now authHeader = .ok p →
        ∃ h tok, authHeader = some h
          ∧ bearerChars.isPrefixOf h
          ∧ jsTrim (h.drop 7) ≠ []
          ∧ env.decode (jsTrim (h.drop 7)) = some tok
          ∧ tok.signedWith = env.secret
          ∧ now < tok.exp
          ∧ p = { sub := tok.payload.sub, email := tok.payload.email
                  refreshToken := jsTrim (h.drop 7) }) := by
  refine ⟨?_, ?_, ?_, ?_, ?_, ?_⟩
  · intro hnone
    subst hnone
    rfl
  · intro h hsome hpre
    subst hsome
    simp [refreshVerifierPipeline, hpre]
  · intro h hsome hpre hempty
    subst hsome
    simp [refreshVerifierPipeline, hpre, hempty]
  · intro h tok hsome hdec hsig
    subst hsome
    by_cases hpre : bearerChars.isPrefixOf h
    · by_cases hempty : jsTrim (h.drop 7) = []
      · simp [refreshVerifierPipeline, hpre, hempty, Except.isOk, Except.toBool]
      · have hsigb : (tok.signedWith == env.secret) = false := by
          simpa using hsig
        simp [refreshVerifierPipeline, hpre, hempty, hdec, jwtVerify, hsigb,
          Except.isOk, Except.toBool]
    · simp [refreshVerifierPipeline, hpre, Except.isOk, Except.toBool]
  · intro h tok hsome hdec hexp
    subst hsome
    by_cases hpre : bearerChars.isPrefixOf h
    · by_cases hempty : jsTrim (h.drop 7) = []
      · simp [refreshVerifierPipeline, hpre, hempty, Except.isOk, Except.toBool]
      · have hlt : ¬ (now < tok.exp) := Nat.not_lt.mpr hexp
        simp [refreshVerifierPipeline, hpre, hempty, hdec, jwtVerify, hlt,
          Except.isOk, Except.toBool]
    · simp [refreshVerifierPipeline, hpre, Except.isOk, Except.toBool]
  · intro p hok
    cases authHeader with
    | none => cases hok
    | some h =>
      by_cases hpre : bearerChars.isPrefixOf h
      · by_cases hempty : jsTrim (h.drop 7) = []
        · simp [refreshVerifierPipeline, hpre, hempty] at hok
        · cases hdec : env.decode (jsTrim (h.drop 7)) with
          | none => simp [refreshVerifierPipeline, hpre, hempty, hdec] at hok
          | some tok =>
            by_cases hsig : (tok.signedWith == env.secret) = true
            · by_cases hlt : now < tok.exp
              · refine ⟨h, tok, rfl, hpre, hempty, hdec, eq_of_beq hsig,
                  hlt, ?_⟩
                simp [refreshVerifierPipeline, hpre, hempty, hdec, jwtVerify,
                  hsig, hlt, refreshStrategyValidate] at hok
                exact hok.symm
              · simp [refreshVerifierPipeline, hpre, hempty, hdec, jwtVerify,
                  hsig, hlt] at hok
            · simp [refreshVerifierPipeline, hpre, hempty, hdec, jwtVerify,
                hsig] at hok
      · simp [refreshVerifierPipeline, hpre] at hok


/-- Closed witness for C8: each failure cause exercised on a concrete
request, plus the success case with its attached claim. -/
theorem refreshVerification_characterization_witness :
    refreshVerifierPipeline envW8 5 none =
        .error (.unauthorized "Unauthorized")
    ∧ refreshVerifierPipeline envW8 5 (some ['T', 'o', 'k']) =
        .error (.unauthorized "Unauthorized")
    ∧ refreshVerifierPipeline envW8 5 (some bearerChars) =
        .error (.unauthorized "Unauthorized")
    ∧ (refreshVerifierPipeline envW8 5
        (some ['B', 'e', 'a', 'r', 'e', 'r', ' ', 'b', 'a', 'd'])).isOk = false
    ∧ (refreshVerifierPipeline envW8 200
        (some ['B', 'e', 'a', 'r', 'e', 'r', ' ', 't', 'o', 'k'])).isOk = false
    ∧ (∃ h tok,
        (some ['B', 'e', 'a', 'r', 'e', 'r', ' ', 't', 'o', 'k'] :
            Option JSString) = some h
          ∧ bearerChars.isPrefixOf h
          ∧ jsTrim (h.drop 7) ≠ []
          ∧ envW8.decode (jsTrim (h.drop 7)) = some tok
          ∧ tok.signedWith = envW8.secret
          ∧ 5 < tok.exp
          ∧ ({ sub := 1, email := "ada@school.com"
               refreshToken := ['t', 'o', 'k'] } : PayloadWithRT) =
              { sub := tok.payload.sub, email := tok.payload.email
                refreshToken := jsTrim (h.drop 7) }) :=
  ⟨(refreshVerification_characterization envW8 5 none).1 rfl,
    (refreshVerification_characterization envW8 5 (some ['T', 'o', 'k'])).2.1
      ['T', 'o', 'k'] rfl (by decide),
    (refreshVerification_characterization envW8 5 (some bearerChars)).2.2.1
      bearerChars rfl (by decide) (by decide),
    (refreshVerification_characterization envW8 5
        (some ['B', 'e', 'a', 'r', 'e', 'r', ' ', 'b', 'a', 'd'])).2.2.2.1
      ['B', 'e', 'a', 'r', 'e', 'r', ' ', 'b', 'a', 'd']
      { payload := { sub := 1, email := "ada@school.com" }
        signedWith := "other", exp := 100 }
      rfl (by decide) (by decide),
    (refreshVerification_characterization envW8 200
        (some ['B', 'e', 'a', 'r', 'e', 'r', ' ', 't', 'o', 'k'])).2.2.2.2.1
      ['B', 'e', 'a', 'r', 'e', 'r', ' ', 't', 'o', 'k']
      { payload := { sub := 1, email := "ada@school.com" }
        signedWith := "sec", exp := 100 }
      rfl (by decide) (by decide),
    (refreshVerification_characterization envW8 5
        (some ['B', 'e', 'a', 'r', 'e', 'r', ' ', 't', 'o', 'k'])).2.2.2.2.2
      { sub := 1, email := "ada@school.com", refreshToken := ['t', 'o', 'k'] }
      rfl⟩

/-- C3 counterexample (closed): for a stored subject whose
`hashedRefreshToken` column is NULL, the refresh operation rejects with the
message `No refresh token found`, not with the claimed
`invalid refresh token` error. -/
theorem refresh_no_stored_hash_message_counterexample :
    refreshTokens envId [profileWithoutHash] 1 ['t'] =
        .error (.notFound "No refresh token found")
    ∧ ("No refresh token found" : String) ≠ "Invalid refresh token" :=
  ⟨rfl, by decide⟩

/-- C3 (amended): the refresh endpoint rejects with `Invalid user` when the
verified claim's subject differs from the caller-supplied id; rejects with
`No refresh token found` when no hash is stored for the subject; rejects with
`Invalid refresh token` when the presented raw token does not match the
stored hash under the one-way comparison; and on success issues a new
access/refresh pair, persists the new refresh hash overwriting the old one,
and returns both tokens. -/
theorem refresh_contract_amended (env : CryptoEnv) (store : List Profile)
    (id : Nat) (reqUser : PayloadWithRT) :
    (reqUser.sub ≠ id →
      authControllerRefreshTokens env store id reqUser =
        .error (.unauthorized "Invalid user"))
    ∧ (reqUser.sub = id → findProfileById store id = none →
        authControllerRefreshTokens env store id reqUser =
          .error (.notFound ("User with ID " ++ toString id ++ " not found")))
    ∧ (∀ u, reqUser.sub = id → findProfileById store id = some u →
        u.hashedRefreshToken = none →
        authControllerRefreshTokens env store id reqUser =
          .error (.notFound "No refresh token found"))
    ∧ (∀ u hsh, reqUser.sub = id → findProfileById store id = some u →
        u.hashedRefreshToken = some hsh →
        bcryptCompare env reqUser.refreshToken hsh = false →
        authControllerRefreshTokens env store id reqUser =
          .error (.notFound "Invalid refresh token"))
    ∧ (∀ u hsh, reqUser.sub = id → findProfileById store id = some u →
        u.hashedRefreshToken = some hsh →
        bcryptCompare env reqUser.refreshToken hsh = true →
        authControllerRefreshTokens env store id reqUser =
          .ok (getTokens env u.id u.email u.role,
            saveRefreshToken env store u.id
              (env.signRefresh u.id u.email u.role))
        ∧ findProfileById
            (saveRefreshToken env store u.id
              (env.signRefresh u.id u.email u.role)) u.id =
            some { u with
              hashedRefreshToken :=
                some (env.bhash (env.signRefresh u.id u.email u.role)) }) := by
  refine ⟨?_, ?_, ?_, ?_, ?_⟩
  · intro hne
    simp [authControllerRefreshTokens, hne]
  · intro heq hfind
    simp [authControllerRefreshTokens, heq, refreshTokens, hfind]
  · intro u heq hfind hnone
    simp [authControllerRefreshTokens, heq, refreshTokens, hfind, hnone]
  · intro u hsh heq hfind hsome hcmp
    simp [authControllerRefreshTokens, heq, refreshTokens, hfind, hsome, hcmp]
  · intro u hsh heq hfind hsome hcmp
    constructor
    · simp [authControllerRefreshTokens, heq, refreshTokens, hfind, hsome,
        hcmp, getTokens]
    · rw [findProfileById_saveRefreshToken]
      have hu : (u.id == id) = true := by
        have hp := List.find?_some hfind
        simpa using hp
      have hid : u.id = id := by simpa using hu
      rw [hid, hfind]
      simp [hid]

/-- Closed witness for C3 (amended): each branch of the refresh contract
exercised on a concrete store. -/
theorem refresh_contract_amended_witness :
    authControllerRefreshTokens envId [profileRight] 1
        { sub := 2, email := "ada@school.com", refreshToken := ['x'] } =
      .error (.unauthorized "Invalid user")
    ∧ authControllerRefreshTokens envId [] 5
        { sub := 5, email := "ada@school.com", refreshToken := ['x'] } =
      .error (.notFound "User with ID 5 not found")
    ∧ authControllerRefreshTokens envId [profileWithoutHash] 1
        { sub := 1, email := "ada@school.com", refreshToken := ['x'] } =
      .error (.notFound "No refresh token found")
    ∧ authControllerRefreshTokens envId [profileRight] 1
        { sub := 1, email := "ada@school.com", refreshToken := ['w'] } =
      .error (.notFound "Invalid refresh token")
    ∧ (authControllerRefreshTokens envId [profileRight] 1
        { sub := 1, email := "ada@school.com"
          refreshToken := ['r', 'i', 'g', 'h', 't'] } =
        .ok ({ accessToken := ['A', 'T', '1'], refreshToken := ['R', 'T', '1'] },
          [{ profileRight with hashedRefreshToken := some ['R', 'T', '1'] }])
      ∧ findProfileById
          [{ profileRight with hashedRefreshToken := some ['R', 'T', '1'] }] 1 =
        some { profileRight with hashedRefreshToken := some ['R', 'T', '1'] }) :=
  ⟨(refresh_contract_amended envId [profileRight] 1
      { sub := 2, email := "ada@school.com", refreshToken := ['x'] }).1
      (by decide),
    (refresh_contract_amended envId [] 5
      { sub := 5, email := "ada@school.com", refreshToken := ['x'] }).2.1
      rfl rfl,
    (refresh_contract_amended envId [profileWithoutHash] 1
      { sub := 1, email := "ada@school.com", refreshToken := ['x'] }).2.2.1
      profileWithoutHash rfl rfl rfl,
    (refresh_contract_amended envId [profileRight] 1
      { sub := 1, email := "ada@school.com", refreshToken := ['w'] }).2.2.2.1
      profileRight ['r', 'i', 'g', 'h', 't'] rfl rfl rfl (by decide),
    (refresh_contract_amended envId [profileRight] 1
      { sub := 1, email := "ada@school.com"
        refreshToken := ['r', 'i', 'g', 'h', 't'] }).2.2.2.2
      profileRight ['r', 'i', 'g', 'h', 't'] rfl rfl rfl (by decide)⟩

/-- C4: with a collision-free hash, after a successful refresh the previously
active refresh token (when distinct from the newly issued one) can no longer
refresh — it now fails the stored-hash comparison; and for any store state at
most one raw token can successfully refresh for a given subject. -/
theorem refresh_rotation_single_use (env : CryptoEnv)
    (hinj : Function.Injective env.bhash) :
    (∀ (store : List Profile) (id : Nat) (rtOld : JSString)
        (pair : TokenPair) (store' : List Profile),
        refreshTokens env store id rtOld = .ok (pair, store') →
        pair.refreshToken ≠ rtOld →
        refreshTokens env store' id rtOld =
          .error (.notFound "Invalid refresh token"))
    ∧ (∀ (store : List Profile) (id : Nat) (t1 t2 : JSString)
        (r1 r2 : TokenPair × List Profile),
        refreshTokens env store id t1 = .ok r1 →
        refreshTokens env store id t2 = .ok r2 → t1 = t2) := by
  constructor
  · intro store id rtOld pair store' hok hne
    rcases hfind : findProfileById store id with _ | u
    · simp [refreshTokens, hfind] at hok
    · rcases hhash : u.hashedRefreshToken with _ | hsh
      · simp [refreshTokens, hfind, hhash] at hok
      · by_cases hcmp : bcryptCompare env rtOld hsh
        · simp [refreshTokens, hfind, hhash, hcmp, getTokens] at hok
          obtain ⟨hpair, hstore⟩ := hok
          have hu : (u.id == id) = true := by
            have hp := List.find?_some hfind
            simpa using hp
          have hid : u.id = id := by simpa using hu
          rw [← hid] at hfind ⊢
          rw [← hstore]
          have hfind2 : findProfileById
              (saveRefreshToken env store u.id
                (env.signRefresh u.id u.email u.role)) u.id =
              some { u with
                hashedRefreshToken :=
                  some (env.bhash (env.signRefresh u.id u.email u.role)) } := by
            rw [findProfileById_saveRefreshToken, hfind]
            rfl
          have hrt : pair.refreshToken = env.signRefresh u.id u.email u.role := by
            rw [← hpair]
          have hneq : (env.bhash (env.signRefresh u.id u.email u.role) ==
              env.bhash rtOld) = false := by
            apply beq_eq_false_iff_ne.mpr
            intro hEq
            exact hne (by rw [hrt, hinj hEq])
          simp [refreshTokens, hfind2, bcryptCompare, hneq]
        · simp [refreshTokens, hfind, hhash, hcmp] at hok
  · intro store id t1 t2 r1 r2 h1 h2
    rcases hfind : findProfileById store id with _ | u
    · simp [refreshTokens, hfind] at h1
    · rcases hhash : u.hashedRefreshToken with _ | hsh
      · simp [refreshTokens, hfind, hhash] at h1
      · by_cases hc1 : bcryptCompare env t1 hsh
        · by_cases hc2 : bcryptCompare env t2 hsh
          · have e1 : hsh = env.bhash t1 := by
              simpa [bcryptCompare] using hc1
            have e2 : hsh = env.bhash t2 := by
              simpa [bcryptCompare] using hc2
            exact hinj (e1.symm.trans e2)
          · simp [refreshTokens, hfind, hhash, hc2] at h2
        · simp [refreshTokens, hfind, hhash, hc1] at h1

/-- Closed witness for C4: the stored token `old` refreshes once; after the
rotation persists the hash of `RT1`, presenting `old` again fails. -/
theorem refresh_rotation_single_use_witness :
    refreshTokens envId [profileOld] 1 ['o', 'l', 'd'] =
        .ok ({ accessToken := ['A', 'T', '1'], refreshToken := ['R', 'T', '1'] },
          [{ profileOld with hashedRefreshToken := some ['R', 'T', '1'] }])
    ∧ refreshTokens envId
        [{ profileOld with hashedRefreshToken := some ['R', 'T', '1'] }] 1
        ['o', 'l', 'd'] =
        .error (.notFound "Invalid refresh token") :=
  ⟨rfl,
    (refresh_rotation_single_use envId (fun _ _ h => h)).1 [profileOld] 1
      ['o', 'l', 'd']
      { accessToken := ['A', 'T', '1'], refreshToken := ['R', 'T', '1'] }
      [{ profileOld with hashedRefreshToken := some ['R', 'T', '1'] }]
      rfl (by decide)⟩

/-- C5 counterexample (closed): refresh with an unknown subject id rejects
with a message that names the missing user, and that message differs from
the one produced for an existing subject presenting a wrong token — so the
unknown-subject failure is a distinct, enumerable signal, not a generic
authentication failure. -/
theorem unknown_subject_leaks_counterexample :
    refreshTokens envId [] 5 ['t'] =
        .error (.notFound "User with ID 5 not found")
    ∧ refreshTokens envId [profileRight] 1 ['w'] =
        .error (.notFound "Invalid refresh token")
    ∧ ("User with ID 5 not found" : String) ≠ "Invalid refresh token" :=
  ⟨rfl, rfl, by decide⟩

/-- C5 (amended): for an unknown subject id, the role guard's re-fetch
denies generically (a bare false, no message) and sign-out (spec-modelled)
fails with a fixed generic authentication error that does not name the
subject; but refresh with an unknown subject id fails with a not-found error
whose message names the missing user id. -/
theorem unknown_subject_failure_modes :
    (∀ (roles : List UserRole) (store : List User) (u : AttachedUser),
        findUserById store u.user_id = none →
        rolesGuardCanActivate (some roles) store (some u) = false)
    ∧ (∀ (store : List Profile) (id : Nat),
        findProfileById store id = none →
        signOut store id = .error (.unauthorized "Unauthorized"))
    ∧ (∀ (env : CryptoEnv) (store : List Profile) (id : Nat) (rt : JSString),
        findProfileById store id = none →
        refreshTokens env store id rt =
          .error (.notFound ("User with ID " ++ toString id ++ " not found"))) := by
  refine ⟨?_, ?_, ?_⟩
  · intro roles store u hfind
    simp [rolesGuardCanActivate, hfind]
  · intro store id hfind
    simp [signOut, hfind]
  · intro env store id rt hfind
    simp [refreshTokens, hfind]

/-- Closed witness for C5 (amended): the three failure modes on concrete
stores with no matching record. -/
theorem unknown_subject_failure_modes_witness :
    rolesGuardCanActivate (some [UserRole.Admin]) []
        (some { user_id := 9, email := "x@y.z", role := "Admin" }) = false
    ∧ signOut [] 5 = .error (.unauthorized "Unauthorized")
    ∧ refreshTokens envId [] 5 ['t'] =
        .error (.notFound "User with ID 5 not found") :=
  ⟨unknown_subject_failure_modes.1 [UserRole.Admin] []
      { user_id := 9, email := "x@y.z", role := "Admin" } rfl,
    unknown_subject_failure_modes.2.1 [] 5 rfl,
    unknown_subject_failure_modes.2.2 envId [] 5 ['t'] rfl⟩

end NestRefresher
